import Mathlib

/-!
Verification of the OGGM training-lahore notebooks.

The only algorithmic code authored in this repository is the
`RandomLinearMassBalance` class of `docs/day_5/user_defined_mb_model.ipynb`.
We embed it shallowly: floats become rationals, the numpy random generator
`np.random.RandomState(seed)` becomes an abstract draw stream
`randn : Nat -> Rat` together with a per-instance draw counter (a fixed seed
fixes the stream, and each `rng.randn()` call consumes the next draw), and
the per-year ELA dictionary `ela_h_per_year` becomes an association list
(keys are only ever inserted when absent, so the two agree).  The remaining
claims concern the workflow contract that the notebooks exercise; those
parts are embedded as transcribed inventories of the notebook call sites
and, for the externally implemented directory manager, as a state machine
modelled from the spec.
-/

set_option autoImplicit false

namespace Lahore

/-- `oggm.cfg.SEC_IN_YEAR = 365 * 24 * 3600`. -/
def SEC_IN_YEAR : ℚ := 31536000

/-- Default value of the `cfg.PARAMS` entry `ice_density` in the OGGM
configuration store (kg per cubic meter), read by `get_annual_mb`. -/
def ice_density : ℚ := 900

/-- Python `int(x)` applied to a float: truncation toward zero. -/
def pyInt (q : ℚ) : ℤ := if 0 ≤ q then ⌊q⌋ else ⌈q⌉

/-- Lookup in an association list, modelling Python dict membership test and
access (`year in d`, `d[year]`). -/
def alookup {α β : Type} [DecidableEq α] (k : α) : List (α × β) → Option β
  | [] => none
  | (k', v) :: rest => if k = k' then some v else alookup k rest

/-- Contents of the `gridded_data` NetCDF file of one glacier directory, as
read by `RandomLinearMassBalance.__init__`: the two variables it uses, with
the 2-d grids flattened to lists. -/
structure GriddedData where
  glacier_mask : List ℚ
  topo_smoothed : List ℚ
deriving DecidableEq

/-- A glacier directory: named on-disk data products.  Only the
`gridded_data` product is ever read by the repository-authored class. -/
structure Gdir where
  files : List (String × GriddedData)
deriving DecidableEq

/-- `gdir.get_filepath('gridded_data')` followed by opening the file. -/
def readGriddedData (gd : Gdir) : Option GriddedData :=
  alookup "gridded_data" gd.files

/-- `glacier_topo[glacier_mask == 1]`: keep the topography values at grid
points where the mask equals 1. -/
def maskedTopo (mask topo : List ℚ) : List ℚ :=
  ((mask.zip topo).filter fun p => decide (p.1 = 1)).map Prod.snd

/-- `np.percentile(a, 40)` with the default linear interpolation: sort the
data, take the fractional index `(n - 1) * 40 / 100` and interpolate
linearly between the two neighbouring order statistics.  `none` on an empty
array (numpy raises there). -/
def percentile40 (l : List ℚ) : Option ℚ :=
  if l.isEmpty then none else
    let s := List.insertionSort (fun a b => a ≤ b) l
    let idx : ℚ := ((s.length : ℚ) - 1) * 40 / 100
    let lo : ℕ := ⌊idx⌋.toNat
    let hi : ℕ := ⌈idx⌉.toNat
    let slo := s.getD lo 0
    let shi := s.getD hi 0
    some (slo + (idx - (lo : ℚ)) * (shi - slo))

/-- The mutable state of a `RandomLinearMassBalance` instance: the scalar
parameters `grad` and `sigma_ela`, the reference ELA `orig_ela_h` computed
in `__init__`, the per-year ELA dictionary, and the number of draws the
instance's random generator has produced so far (the generator state). -/
structure RLMB where
  grad : ℚ
  sigma_ela : ℚ
  orig_ela_h : ℚ
  ela_h_per_year : List (ℤ × ℚ)
  rng_count : ℕ
deriving DecidableEq

/-- `RandomLinearMassBalance.__init__(gdir, grad, sigma_ela, seed)`: read
`glacier_mask` and `topo_smoothed` from the `gridded_data` file, set
`orig_ela_h` to the 40 percent percentile of the masked topography, and
start with an empty `ela_h_per_year` dictionary and a fresh generator.
The constant attributes `valid_bounds` and `hemisphere` play no role in any
claim and are omitted; the seed is modelled by the draw stream passed to
the methods. -/
def RLMBinit (gd : Gdir) (grad sigma_ela : ℚ) : Option RLMB :=
  match readGriddedData gd with
  | none => none
  | some g =>
    match percentile40 (maskedTopo g.glacier_mask g.topo_smoothed) with
    | none => none
    | some e =>
      some { grad := grad, sigma_ela := sigma_ela, orig_ela_h := e,
             ela_h_per_year := [], rng_count := 0 }

/-- `RandomLinearMassBalance.get_random_ela_h(year)`: truncate the year to
an integer; return the cached ELA if present, otherwise draw
`orig_ela_h + rng.randn() * sigma_ela`, cache it and return it.  `randn` is
the instance's seeded draw stream. -/
def get_random_ela_h (randn : ℕ → ℚ) (m : RLMB) (year : ℚ) : ℚ × RLMB :=
  match alookup (pyInt year) m.ela_h_per_year with
  | some v => (v, m)
  | none =>
    let ela := m.orig_ela_h + randn m.rng_count * m.sigma_ela
    (ela, { m with ela_h_per_year := (pyInt year, ela) :: m.ela_h_per_year,
                   rng_count := m.rng_count + 1 })

/-- `RandomLinearMassBalance.get_annual_mb(heights, year)`:
`mb = (np.asarray(heights) - ela_h) * self.grad` followed by the unit
conversion `mb / SEC_IN_YEAR / cfg.PARAMS['ice_density']`. -/
def get_annual_mb (randn : ℕ → ℚ) (m : RLMB) (heights : List ℚ)
    (year : ℚ) : List ℚ × RLMB :=
  let r := get_random_ela_h randn m year
  (heights.map fun h => (h - r.1) * m.grad / SEC_IN_YEAR / ice_density, r.2)

/-- One call to a `RandomLinearMassBalance` method. -/
inductive MBCall where
  | elaCall (year : ℚ)
  | mbCall (heights : List ℚ) (year : ℚ)

/-- The value returned by one method call. -/
inductive MBOut where
  | elaOut (v : ℚ)
  | mbOut (l : List ℚ)

/-- Execute one method call on an instance. -/
def mbStep (randn : ℕ → ℚ) (m : RLMB) : MBCall → MBOut × RLMB
  | .elaCall y =>
    (MBOut.elaOut (get_random_ela_h randn m y).1, (get_random_ela_h randn m y).2)
  | .mbCall hs y =>
    (MBOut.mbOut (get_annual_mb randn m hs y).1, (get_annual_mb randn m hs y).2)

/-- Execute a sequence of method calls on an instance, collecting the
returned values. -/
def mbRun (randn : ℕ → ℚ) (m : RLMB) : List MBCall → List MBOut × RLMB
  | [] => ([], m)
  | c :: cs =>
    let s := mbStep randn m c
    let r := mbRun randn s.2 cs
    (s.1 :: r.1, r.2)

/-- Fixed draw stream used for concrete witnesses. -/
def randn0 : ℕ → ℚ := fun _ => 0

/-- Concrete instance state used for witnesses: default parameters
`grad = 3`, `sigma_ela = 100`, reference ELA 2500, empty cache. -/
def mW : RLMB :=
  { grad := 3, sigma_ela := 100, orig_ela_h := 2500,
    ela_h_per_year := [], rng_count := 0 }

/-- C1: `get_annual_mb(heights, year)` returns exactly
`(heights - ela_h) * grad / SEC_IN_YEAR / ice_density` where `ela_h` is the
value `get_random_ela_h` produces for that year; the per-height rate is
linear in elevation with slope `grad / (SEC_IN_YEAR * ice_density)` and,
whenever `grad` is nonzero, vanishes exactly at the year's ELA. -/
theorem C1_get_annual_mb_linear (randn : ℕ → ℚ) (m : RLMB)
    (heights : List ℚ) (year : ℚ) :
    (get_annual_mb randn m heights year).1 =
      heights.map (fun h =>
        (h - (get_random_ela_h randn m year).1) * m.grad / SEC_IN_YEAR / ice_density)
    ∧ (∀ x1 x2 : ℚ,
        (x1 - (get_random_ela_h randn m year).1) * m.grad / SEC_IN_YEAR / ice_density
          - (x2 - (get_random_ela_h randn m year).1) * m.grad / SEC_IN_YEAR / ice_density
          = (x1 - x2) * (m.grad / (SEC_IN_YEAR * ice_density)))
    ∧ (m.grad ≠ 0 → ∀ x : ℚ,
        ((x - (get_random_ela_h randn m year).1) * m.grad / SEC_IN_YEAR / ice_density = 0
          ↔ x = (get_random_ela_h randn m year).1)) := by
  refine ⟨rfl, ?_, ?_⟩
  · intro x1 x2
    simp only [SEC_IN_YEAR, ice_density]
    ring
  · intro hg x
    simp only [SEC_IN_YEAR, ice_density]
    rw [div_eq_zero_iff, div_eq_zero_iff, mul_eq_zero, sub_eq_zero]
    constructor
    · rintro (((hx | hgrad) | hS) | hd)
      · exact hx
      · exact absurd hgrad hg
      · exact absurd hS (by norm_num)
      · exact absurd hd (by norm_num)
    · intro hx
      exact Or.inl (Or.inl (Or.inl hx))

/-- Witness for C1 at a concrete instance, height array and year. -/
theorem C1_witness :
    (get_annual_mb randn0 mW [2000] 2000).1 =
      [2000].map (fun h =>
        (h - (get_random_ela_h randn0 mW 2000).1) * mW.grad / SEC_IN_YEAR / ice_density)
    ∧ (((2501 : ℚ) - (get_random_ela_h randn0 mW 2000).1) * mW.grad
          / SEC_IN_YEAR / ice_density = 0
        ↔ (2501 : ℚ) = (get_random_ela_h randn0 mW 2000).1) :=
  ⟨(C1_get_annual_mb_linear randn0 mW [2000] 2000).1,
   (C1_get_annual_mb_linear randn0 mW [2000] 2000).2.2 (by norm_num [mW]) 2501⟩

/-- After any call to `get_random_ela_h`, the truncated year is in the
cache and maps to the returned value. -/
lemma ela_h_cached (randn : ℕ → ℚ) (m : RLMB) (y : ℚ) :
    alookup (pyInt y) (get_random_ela_h randn m y).2.ela_h_per_year =
      some (get_random_ela_h randn m y).1 := by
  unfold get_random_ela_h
  cases hl : alookup (pyInt y) m.ela_h_per_year with
  | some v => simpa using hl
  | none => simp [alookup]

/-- A cached year is returned as-is and the state is untouched. -/
lemma ela_h_of_cached (randn : ℕ → ℚ) (m : RLMB) (y : ℚ) (v : ℚ)
    (h : alookup (pyInt y) m.ela_h_per_year = some v) :
    get_random_ela_h randn m y = (v, m) := by
  simp [get_random_ela_h, h]

/-- `get_random_ela_h` never removes or overwrites a cache entry. -/
lemma cache_preserved_ela (randn : ℕ → ℚ) (m : RLMB) (y : ℚ) (k : ℤ) (v : ℚ)
    (h : alookup k m.ela_h_per_year = some v) :
    alookup k (get_random_ela_h randn m y).2.ela_h_per_year = some v := by
  unfold get_random_ela_h
  cases hl : alookup (pyInt y) m.ela_h_per_year with
  | some w => simpa using h
  | none =>
    have hk : ¬ k = pyInt y := by
      intro he
      rw [he, hl] at h
      cases h
    simp [alookup, hk, h]

/-- A method call never removes or overwrites a cache entry. -/
lemma cache_preserved_step (randn : ℕ → ℚ) (m : RLMB) (c : MBCall)
    (k : ℤ) (v : ℚ) (h : alookup k m.ela_h_per_year = some v) :
    alookup k (mbStep randn m c).2.ela_h_per_year = some v := by
  cases c with
  | elaCall y => exact cache_preserved_ela randn m y k v h
  | mbCall hs y => exact cache_preserved_ela randn m y k v h

/-- A whole call sequence never removes or overwrites a cache entry. -/
lemma cache_preserved_run (randn : ℕ → ℚ) (m : RLMB) (calls : List MBCall)
    (k : ℤ) (v : ℚ) (h : alookup k m.ela_h_per_year = some v) :
    alookup k (mbRun randn m calls).2.ela_h_per_year = some v := by
  induction calls generalizing m with
  | nil => simpa [mbRun] using h
  | cons c cs ih =>
    exact ih (mbStep randn m c).2 (cache_preserved_step randn m c k v h)

/-- C8: `get_random_ela_h` is idempotent per integer year.  The first call
stores the returned ELA under `int(year)`; after any interleaved sequence
of method calls, a later call whose argument truncates to the same integer
year returns exactly that value and leaves the state untouched; and any
cache entry, once written, survives any call sequence unchanged. -/
theorem C8_ela_h_idempotent (randn : ℕ → ℚ) (m : RLMB) (y : ℚ) :
    alookup (pyInt y) (get_random_ela_h randn m y).2.ela_h_per_year =
      some (get_random_ela_h randn m y).1
    ∧ (∀ calls : List MBCall, ∀ y2 : ℚ, pyInt y2 = pyInt y →
        get_random_ela_h randn (mbRun randn (get_random_ela_h randn m y).2 calls).2 y2
          = ((get_random_ela_h randn m y).1,
             (mbRun randn (get_random_ela_h randn m y).2 calls).2))
    ∧ (∀ k : ℤ, ∀ v : ℚ, alookup k m.ela_h_per_year = some v →
        ∀ calls : List MBCall,
          alookup k (mbRun randn m calls).2.ela_h_per_year = some v) := by
  refine ⟨ela_h_cached randn m y, ?_, ?_⟩
  · intro calls y2 hy2
    have h1 := ela_h_cached randn m y
    have h2 := cache_preserved_run randn (get_random_ela_h randn m y).2 calls
      (pyInt y) (get_random_ela_h randn m y).1 h1
    rw [← hy2] at h2
    exact ela_h_of_cached randn _ y2 _ h2
  · intro k v h calls
    exact cache_preserved_run randn m calls k v h

/-- Concrete instance with one pre-existing cache entry, for the C8
witness. -/
def mC : RLMB :=
  { grad := 3, sigma_ela := 100, orig_ela_h := 2500,
    ela_h_per_year := [(1999, 42)], rng_count := 0 }

/-- Concrete interleaved call sequence for the C8 witness. -/
def callsW : List MBCall := [MBCall.elaCall 2005, MBCall.mbCall [3000] 1999]

/-- Witness for C8: year 2000, a repeat request at 2000.5 (which truncates
to the same integer year 2000) after two interleaved calls for other years,
and survival of the pre-existing entry for 1999. -/
theorem C8_witness :
    get_random_ela_h randn0 (mbRun randn0 (get_random_ela_h randn0 mC 2000).2 callsW).2
        ((4001 : ℚ) / 2)
      = ((get_random_ela_h randn0 mC 2000).1,
         (mbRun randn0 (get_random_ela_h randn0 mC 2000).2 callsW).2)
    ∧ alookup 1999 (mbRun randn0 mC callsW).2.ela_h_per_year = some 42 :=
  ⟨(C8_ela_h_idempotent randn0 mC 2000).2.1 callsW ((4001 : ℚ) / 2)
      (by
        have h1 : pyInt ((4001 : ℚ) / 2) = 2000 := by
          rw [pyInt, if_pos (by norm_num), Int.floor_eq_iff]
          norm_num
        have h2 : pyInt (2000 : ℚ) = 2000 := by
          rw [pyInt, if_pos (by norm_num), Int.floor_eq_iff]
          norm_num
        rw [h1, h2]),
   (C8_ela_h_idempotent randn0 mC 2000).2.2 1999 42 (by simp [mC, alookup]) callsW⟩

/-- `get_random_ela_h` only ever mutates the cache and the generator
counter: the parameters and the reference ELA are untouched. -/
lemma fields_preserved_ela (randn : ℕ → ℚ) (m : RLMB) (y : ℚ) :
    (get_random_ela_h randn m y).2.grad = m.grad
    ∧ (get_random_ela_h randn m y).2.sigma_ela = m.sigma_ela
    ∧ (get_random_ela_h randn m y).2.orig_ela_h = m.orig_ela_h := by
  unfold get_random_ela_h
  cases hl : alookup (pyInt y) m.ela_h_per_year <;> simp

/-- A method call only ever mutates the cache and the generator counter. -/
lemma fields_preserved_step (randn : ℕ → ℚ) (m : RLMB) (c : MBCall) :
    (mbStep randn m c).2.grad = m.grad
    ∧ (mbStep randn m c).2.sigma_ela = m.sigma_ela
    ∧ (mbStep randn m c).2.orig_ela_h = m.orig_ela_h := by
  cases c with
  | elaCall y => exact fields_preserved_ela randn m y
  | mbCall hs y => exact fields_preserved_ela randn m y

/-- A whole call sequence only ever mutates the cache and the generator
counter. -/
lemma fields_preserved_run (randn : ℕ → ℚ) (m : RLMB) (calls : List MBCall) :
    (mbRun randn m calls).2.grad = m.grad
    ∧ (mbRun randn m calls).2.sigma_ela = m.sigma_ela
    ∧ (mbRun randn m calls).2.orig_ela_h = m.orig_ela_h := by
  induction calls generalizing m with
  | nil => exact ⟨rfl, rfl, rfl⟩
  | cons c cs ih =>
    have hs := fields_preserved_step randn m c
    have hr := ih (mbStep randn m c).2
    exact ⟨hr.1.trans hs.1, hr.2.1.trans hs.2.1, hr.2.2.trans hs.2.2⟩

/-- The joint state of one glacier directory and one
`RandomLinearMassBalance` instance.  The method bodies contain no file
operation at all, so a method call passes the directory through
untouched. -/
def sysStep (randn : ℕ → ℚ) (p : Gdir × RLMB) (c : MBCall) :
    MBOut × (Gdir × RLMB) :=
  let r := mbStep randn p.2 c
  (r.1, (p.1, r.2))

/-- Execute a sequence of method calls on the joint state. -/
def sysRun (randn : ℕ → ℚ) (p : Gdir × RLMB) :
    List MBCall → List MBOut × (Gdir × RLMB)
  | [] => ([], p)
  | c :: cs =>
    let s := sysStep randn p c
    let r := sysRun randn s.2 cs
    (s.1 :: r.1, r.2)

/-- C10: constructing a `RandomLinearMassBalance` and calling its methods
never modifies the entity directory.  `RLMBinit` consumes the directory
read-only (its type returns no directory at all), and any sequence of
`get_random_ela_h` / `get_annual_mb` calls leaves the directory component
of the joint state unchanged; all mutation is confined to the instance's
cache and generator counter. -/
theorem C10_no_directory_mutation (gd : Gdir) (g s : ℚ) (m : RLMB)
    (_hinit : RLMBinit gd g s = some m) (randn : ℕ → ℚ)
    (calls : List MBCall) :
    (sysRun randn (gd, m) calls).2.1 = gd
    ∧ (sysRun randn (gd, m) calls).2.2.grad = m.grad
    ∧ (sysRun randn (gd, m) calls).2.2.sigma_ela = m.sigma_ela
    ∧ (sysRun randn (gd, m) calls).2.2.orig_ela_h = m.orig_ela_h := by
  have hdir : ∀ (p : Gdir × RLMB) (cs : List MBCall),
      (sysRun randn p cs).2.1 = p.1 := by
    intro p cs
    induction cs generalizing p with
    | nil => rfl
    | cons c cs ih => exact ih (sysStep randn p c).2
  have hst : ∀ (p : Gdir × RLMB) (cs : List MBCall),
      (sysRun randn p cs).2.2 = (mbRun randn p.2 cs).2 := by
    intro p cs
    induction cs generalizing p with
    | nil => rfl
    | cons c cs ih => exact ih (sysStep randn p c).2
  have hf := fields_preserved_run randn m calls
  rw [hst (gd, m) calls]
  exact ⟨hdir (gd, m) calls, hf.1, hf.2.1, hf.2.2⟩

/-- C9: a `RandomLinearMassBalance` is deterministic under a fixed seed.
Two instances constructed from the same glacier data with equal `grad` and
`sigma_ela` and the same seed (hence the same draw stream `randn`) return
equal results, and reach equal states, on any identical sequence of
`get_random_ela_h` / `get_annual_mb` calls. -/
theorem C9_deterministic_under_seed (randn : ℕ → ℚ) (gd : Gdir) (g s : ℚ)
    (m1 m2 : RLMB) (h1 : RLMBinit gd g s = some m1)
    (h2 : RLMBinit gd g s = some m2) (calls : List MBCall) :
    mbRun randn m1 calls = mbRun randn m2 calls := by
  rw [h1] at h2
  cases h2
  rfl

/-- Concrete glacier directory for witnesses: a gridded-data file whose
mask selects the single topography value 2500. -/
def gdW : Gdir :=
  { files := [("gridded_data", { glacier_mask := [1], topo_smoothed := [2500] })] }

/-- Evaluating the constructor on the concrete directory `gdW`. -/
lemma RLMBinit_gdW : RLMBinit gdW 3 100 = some mW := by
  have hmask : maskedTopo [1] [2500] = [2500] := by
    simp [maskedTopo]
  have hperc : percentile40 [2500] = some 2500 := by
    unfold percentile40
    norm_num [List.insertionSort, List.orderedInsert]
  simp [RLMBinit, readGriddedData, gdW, alookup, hmask, hperc, mW]

/-- Witness for C9 at the concrete directory `gdW`, parameters `grad = 3`
and `sigma_ela = 100`, and a one-call sequence. -/
theorem C9_witness :
    mbRun randn0 mW [MBCall.elaCall 2000] = mbRun randn0 mW [MBCall.elaCall 2000] :=
  C9_deterministic_under_seed randn0 gdW 3 100 mW mW RLMBinit_gdW RLMBinit_gdW
    [MBCall.elaCall 2000]

/-- Witness for C10 at the concrete directory `gdW` and a two-call
sequence. -/
theorem C10_witness :
    (sysRun randn0 (gdW, mW) callsW).2.1 = gdW
    ∧ (sysRun randn0 (gdW, mW) callsW).2.2.grad = mW.grad
    ∧ (sysRun randn0 (gdW, mW) callsW).2.2.sigma_ela = mW.sigma_ela
    ∧ (sysRun randn0 (gdW, mW) callsW).2.2.orig_ela_h = mW.orig_ela_h :=
  C10_no_directory_mutation gdW 3 100 mW RLMBinit_gdW randn0 callsW

/-- Modelled from the spec: the remote arguments of
`workflow.init_glacier_directories` (`prepro_base_url`, `from_prepro_level`,
`prepro_border`), whose implementation lives in the external OGGM library
and is not part of this repository's sources. -/
structure RemoteSpec where
  base_url : String
  prepro_level : ℕ
  prepro_border : ℕ
deriving DecidableEq

/-- Modelled from the spec: the content of one entity directory, a mapping
from logical data product names to stored data. -/
def DirContent : Type := List (String × String)

/-- Modelled from the spec: the local working directory holding one
subdirectory per entity identifier, plus a counter of network fetches
performed so far (so that "no network fetch" is an observable fact). -/
structure WorkDir where
  entries : List (String × DirContent)
  fetch_count : ℕ

/-- Modelled from the spec: `init_glacier_directories` for a single entity
identifier, whose implementation is external to this repository.  Local
hit: pure local lookup returning a handle to the stored state.  Local miss
with remote arguments: network fetch and local extraction.  Local miss
without remote arguments: an external error, no handle. -/
def initOne (remote : RemoteSpec → String → Option DirContent) (w : WorkDir)
    (r : Option RemoteSpec) (id : String) :
    Option (String × DirContent) × WorkDir :=
  match alookup id w.entries with
  | some c => (some (id, c), w)
  | none =>
    match r with
    | none => (none, w)
    | some rs =>
      match remote rs id with
      | none => (none, w)
      | some c =>
        (some (id, c),
         { entries := (id, c) :: w.entries, fetch_count := w.fetch_count + 1 })

/-- Modelled from the spec: `workflow.init_glacier_directories` over a list
of entity identifiers, returning one local handle per identifier; the
implementation is external to this repository. -/
def init_glacier_directories (remote : RemoteSpec → String → Option DirContent)
    (r : Option RemoteSpec) (w : WorkDir) :
    List String → List (Option (String × DirContent)) × WorkDir
  | [] => ([], w)
  | id :: ids =>
    let p := initOne remote w r id
    let q := init_glacier_directories remote r p.2 ids
    (p.1 :: q.1, q.2)

/-- With no remote arguments, a single-identifier initialization never
changes the working directory. -/
lemma initOne_no_remote_state (remote : RemoteSpec → String → Option DirContent)
    (w : WorkDir) (id : String) :
    (initOne remote w none id).2 = w := by
  unfold initOne
  cases alookup id w.entries <;> rfl

/-- With no remote arguments, the handle for a single identifier is exactly
the local lookup result. -/
lemma initOne_no_remote_handle (remote : RemoteSpec → String → Option DirContent)
    (w : WorkDir) (id : String) :
    (initOne remote w none id).1 =
      (alookup id w.entries).map (fun c => (id, c)) := by
  unfold initOne
  cases alookup id w.entries <;> rfl

/-- With no remote arguments, a whole `init_glacier_directories` call never
changes the working directory. -/
lemma igd_no_remote_state (remote : RemoteSpec → String → Option DirContent)
    (ids : List String) (w : WorkDir) :
    (init_glacier_directories remote none w ids).2 = w := by
  induction ids generalizing w with
  | nil => rfl
  | cons id ids ih =>
    show (init_glacier_directories remote none (initOne remote w none id).2 ids).2 = w
    rw [initOne_no_remote_state]
    exact ih w

/-- With no remote arguments, the handles are exactly the local lookup
results in the unchanged working directory. -/
lemma igd_no_remote_handles (remote : RemoteSpec → String → Option DirContent)
    (ids : List String) (w : WorkDir) :
    (init_glacier_directories remote none w ids).1 =
      ids.map (fun id => (alookup id w.entries).map (fun c => (id, c))) := by
  induction ids generalizing w with
  | nil => rfl
  | cons id ids ih =>
    show (initOne remote w none id).1 ::
        (init_glacier_directories remote none (initOne remote w none id).2 ids).1
      = _ :: _
    rw [initOne_no_remote_handle, initOne_no_remote_state]
    rw [ih w]

/-- Unfolding equation: a locally known identifier is a pure local hit. -/
lemma initOne_local (remote : RemoteSpec → String → Option DirContent)
    (w : WorkDir) (r : Option RemoteSpec) (id : String) (c : DirContent)
    (h : alookup id w.entries = some c) :
    initOne remote w r id = (some (id, c), w) := by
  unfold initOne
  simp only [h]

/-- Unfolding equation: local miss without remote arguments. -/
lemma initOne_miss_none (remote : RemoteSpec → String → Option DirContent)
    (w : WorkDir) (id : String) (h : alookup id w.entries = none) :
    initOne remote w none id = (none, w) := by
  unfold initOne
  simp only [h]

/-- Unfolding equation: local miss and remote miss. -/
lemma initOne_miss_remote (remote : RemoteSpec → String → Option DirContent)
    (w : WorkDir) (rs : RemoteSpec) (id : String)
    (h1 : alookup id w.entries = none) (h2 : remote rs id = none) :
    initOne remote w (some rs) id = (none, w) := by
  unfold initOne
  simp only [h1, h2]

/-- Unfolding equation: local miss, remote hit — fetch and extract. -/
lemma initOne_fetch (remote : RemoteSpec → String → Option DirContent)
    (w : WorkDir) (rs : RemoteSpec) (id : String) (c : DirContent)
    (h1 : alookup id w.entries = none) (h2 : remote rs id = some c) :
    initOne remote w (some rs) id =
      (some (id, c),
       { entries := (id, c) :: w.entries, fetch_count := w.fetch_count + 1 }) := by
  unfold initOne
  simp only [h1, h2]

/-- Unfolding equation: the handle list of a non-empty call. -/
lemma igd_cons_fst (remote : RemoteSpec → String → Option DirContent)
    (r : Option RemoteSpec) (w : WorkDir) (id : String) (ids : List String) :
    (init_glacier_directories remote r w (id :: ids)).1 =
      (initOne remote w r id).1 ::
        (init_glacier_directories remote r (initOne remote w r id).2 ids).1 := rfl

/-- Unfolding equation: the final state of a non-empty call. -/
lemma igd_cons_snd (remote : RemoteSpec → String → Option DirContent)
    (r : Option RemoteSpec) (w : WorkDir) (id : String) (ids : List String) :
    (init_glacier_directories remote r w (id :: ids)).2 =
      (init_glacier_directories remote r (initOne remote w r id).2 ids).2 := rfl

/-- `initOne` never removes or overwrites a stored entity directory. -/
lemma initOne_preserves (remote : RemoteSpec → String → Option DirContent)
    (w : WorkDir) (r : Option RemoteSpec) (id k : String) (c : DirContent)
    (h : alookup k w.entries = some c) :
    alookup k (initOne remote w r id).2.entries = some c := by
  cases h1 : alookup id w.entries with
  | some d => rw [initOne_local remote w r id d h1]; exact h
  | none =>
    cases r with
    | none => rw [initOne_miss_none remote w id h1]; exact h
    | some rs =>
      cases h2 : remote rs id with
      | none => rw [initOne_miss_remote remote w rs id h1 h2]; exact h
      | some d =>
        rw [initOne_fetch remote w rs id d h1 h2]
        have hk : ¬ k = id := by
          intro he
          rw [he, h1] at h
          cases h
        simp [alookup, hk, h]

/-- A whole `init_glacier_directories` call never removes or overwrites a
stored entity directory. -/
lemma igd_preserves (remote : RemoteSpec → String → Option DirContent)
    (r : Option RemoteSpec) (ids : List String) (w : WorkDir) (k : String)
    (c : DirContent) (h : alookup k w.entries = some c) :
    alookup k (init_glacier_directories remote r w ids).2.entries = some c := by
  induction ids generalizing w with
  | nil => simpa using h
  | cons id ids ih =>
    rw [igd_cons_snd]
    exact ih (initOne remote w r id).2 (initOne_preserves remote w r id k c h)

/-- An identifier that is absent locally and absent remotely stays absent
through any `init_glacier_directories` call with these remote arguments. -/
lemma igd_absent (remote : RemoteSpec → String → Option DirContent)
    (rs : RemoteSpec) (ids : List String) (w : WorkDir) (id : String)
    (h1 : alookup id w.entries = none) (h2 : remote rs id = none) :
    alookup id (init_glacier_directories remote (some rs) w ids).2.entries = none := by
  induction ids generalizing w with
  | nil => simpa using h1
  | cons id2 ids ih =>
    rw [igd_cons_snd]
    cases ha : alookup id2 w.entries with
    | some d =>
      rw [initOne_local remote w (some rs) id2 d ha]
      exact ih w h1
    | none =>
      cases hb : remote rs id2 with
      | none =>
        rw [initOne_miss_remote remote w rs id2 ha hb]
        exact ih w h1
      | some d =>
        rw [initOne_fetch remote w rs id2 d ha hb]
        refine ih _ ?_
        have hk : ¬ id = id2 := by
          intro he
          rw [he, hb] at h2
          cases h2
        simp [alookup, hk, h1]

/-- The handles returned by `init_glacier_directories` with remote
arguments can be read back from the final working directory: each one is
the local lookup of its identifier in the state after the whole call. -/
lemma igd_remote_handles (remote : RemoteSpec → String → Option DirContent)
    (rs : RemoteSpec) (ids : List String) :
    ∀ w : WorkDir,
      (init_glacier_directories remote (some rs) w ids).1 =
        ids.map (fun id =>
          (alookup id (init_glacier_directories remote (some rs) w ids).2.entries).map
            (fun c => (id, c))) := by
  induction ids with
  | nil => intro w; rfl
  | cons id ids ih =>
    intro w
    cases ha : alookup id w.entries with
    | some c =>
      simp only [igd_cons_fst, igd_cons_snd,
        initOne_local remote w (some rs) id c ha, List.map_cons]
      rw [ih w, igd_preserves remote (some rs) ids w id c ha]
      simp
    | none =>
      cases hb : remote rs id with
      | some c =>
        simp only [igd_cons_fst, igd_cons_snd,
          initOne_fetch remote w rs id c ha hb, List.map_cons]
        rw [ih { entries := (id, c) :: w.entries, fetch_count := w.fetch_count + 1 },
          igd_preserves remote (some rs) ids
            { entries := (id, c) :: w.entries, fetch_count := w.fetch_count + 1 }
            id c (by simp [alookup])]
        simp
      | none =>
        simp only [igd_cons_fst, igd_cons_snd,
          initOne_miss_remote remote w rs id ha hb, List.map_cons]
        rw [ih w, igd_absent remote rs ids w id ha hb]
        simp

/-- C4 (spec-modelled): after a first `init_glacier_directories` call with
remote arguments, a second call with only the identifiers is a pure local
lookup: it returns the same handles to the same on-disk state, changes
nothing in the working directory, and performs no network fetch. -/
theorem C4_reinit_is_local_lookup
    (remote : RemoteSpec → String → Option DirContent) (rs : RemoteSpec)
    (w : WorkDir) (ids : List String) :
    init_glacier_directories remote none
        (init_glacier_directories remote (some rs) w ids).2 ids
      = init_glacier_directories remote (some rs) w ids
    ∧ (init_glacier_directories remote none
        (init_glacier_directories remote (some rs) w ids).2 ids).2.fetch_count
      = (init_glacier_directories remote (some rs) w ids).2.fetch_count := by
  have hmain : init_glacier_directories remote none
      (init_glacier_directories remote (some rs) w ids).2 ids
    = init_glacier_directories remote (some rs) w ids := by
    refine Prod.ext ?_ ?_
    · rw [igd_no_remote_handles remote ids
        (init_glacier_directories remote (some rs) w ids).2]
      rw [igd_remote_handles remote rs ids w]
    · rw [igd_no_remote_state remote ids
        (init_glacier_directories remote (some rs) w ids).2]
  exact ⟨hmain, by rw [hmain]⟩

/-- One instantiation of a model-evaluation (mass-balance) object in the
notebooks.  `mappingImplementedExternally` records whether the operation
mapping an elevation value and a time index to a scalar rate
(`get_annual_mb`) is implemented by the external library or by code
authored in this repository. -/
structure MBModelUse where
  notebook : String
  className : String
  mappingImplementedExternally : Bool
  params : String
deriving DecidableEq

/-- The `RandomLinearMassBalance` instantiation of the day-5 notebook: the
class is defined in a notebook cell of this repository, including its own
`get_annual_mb`. -/
def rlmbUse : MBModelUse :=
  { notebook := "docs/day_5/user_defined_mb_model.ipynb",
    className := "RandomLinearMassBalance",
    mappingImplementedExternally := false,
    params := "grad=3 and sigma_ela=100 defaults" }

/-- The naive `MonthlyTIModel` instantiation of the day-4 calibration
notebook: first-guess parameters, mapping implemented by the external
library. -/
def naiveTIUse : MBModelUse :=
  { notebook := "docs/day_4/02_massbalance_calibration.ipynb",
    className := "MonthlyTIModel",
    mappingImplementedExternally := true,
    params := "temp_bias=0, prcp_fac=1, melt_f=5" }

/-- The model-evaluation objects instantiated in the notebooks, transcribed
from source. -/
def mbModelUses : List MBModelUse :=
  [ { notebook := "docs/day_3/01_ice_flow_parameters.ipynb",
      className := "oggm_edu.MassBalance",
      mappingImplementedExternally := true,
      params := "ela=3000, gradient=4" },
    { notebook := "docs/day_4/02_massbalance_calibration.ipynb",
      className := "MonthlyTIModel",
      mappingImplementedExternally := true,
      params := "calibrated parameters stored in the glacier directory" },
    naiveTIUse,
    { notebook := "docs/day_4/02_massbalance_calibration.ipynb",
      className := "MonthlyTIModel",
      mappingImplementedExternally := true,
      params := "melt_f varied over 1, 5, 10, 15 in the sensitivity loop" },
    { notebook := "docs/day_4/02_massbalance_calibration.ipynb",
      className := "MonthlyTIModel",
      mappingImplementedExternally := true,
      params := "optimal_params_2 returned by mb_calibration_from_scalar_mb" },
    rlmbUse ]

/-- C2 counterexample: the day-5 notebook instantiates a model-evaluation
object whose elevation-to-rate mapping is authored in this repository
(`RandomLinearMassBalance.get_annual_mb`), so the claim that the mapping is
never implemented by repository code fails. -/
theorem C2_counterexample :
    rlmbUse ∈ mbModelUses ∧ rlmbUse.mappingImplementedExternally = false := by
  decide

/-- C2 as amended: with the single exception of the instructional
`RandomLinearMassBalance` subclass defined in the day-5 notebook, every
model-evaluation object exercised in the notebooks has its
elevation-to-rate mapping implemented by the external library, and is
instantiated only with varying scalar tuning parameters. -/
theorem C2_mapping_external_except_rlmb :
    ∀ u ∈ mbModelUses, u.className ≠ "RandomLinearMassBalance" →
      u.mappingImplementedExternally = true := by
  decide

/-- Witness for C2 at the naive `MonthlyTIModel` instantiation. -/
theorem C2_witness : naiveTIUse.mappingImplementedExternally = true :=
  C2_mapping_external_except_rlmb naiveTIUse (by decide) (by decide)

/-- One invocation of an entity task by the notebooks.
`viaExecuteEntityTask` records whether it is broadcast through
`workflow.execute_entity_task`; `resultBoundByCaller` records whether the
notebook binds the return value to a variable and uses it afterwards. -/
structure TaskCall where
  notebook : String
  task : String
  viaExecuteEntityTask : Bool
  resultBoundByCaller : Bool
  callSite : String
deriving DecidableEq

/-- The direct call of the calibration task in the day-4 calibration
notebook: `optimal_params_2 = mb_calibration_from_scalar_mb(gdir, ...,
write_to_gdir=False, ...)`, whose returned parameter record is then passed
to `MonthlyTIModel`. -/
def mbCalibCall : TaskCall :=
  { notebook := "docs/day_4/02_massbalance_calibration.ipynb",
    task := "mb_calibration_from_scalar_mb",
    viaExecuteEntityTask := false,
    resultBoundByCaller := true,
    callSite := "recalibration cell with write_to_gdir=False" }

/-- The inversion-task broadcast of the inversion notebook (factor loop,
no sliding). -/
def invTaskCall : TaskCall :=
  { notebook := "docs/day_4/03_inversion.ipynb",
    task := "tasks.mass_conservation_inversion",
    viaExecuteEntityTask := true, resultBoundByCaller := false,
    callSite := "factor loop, fs=0" }

/-- The entity-task invocations of the notebooks, transcribed from
source. -/
def taskCalls : List TaskCall :=
  [ { notebook := "unnamed solutions notebook: A first projection in OGGM",
      task := "gcm_climate.process_monthly_isimip_data",
      viaExecuteEntityTask := true, resultBoundByCaller := false,
      callSite := "set-up cell" },
    { notebook := "unnamed solutions notebook: A first projection in OGGM",
      task := "gcm_climate.process_monthly_isimip_data",
      viaExecuteEntityTask := true, resultBoundByCaller := false,
      callSite := "ssp scenario loop" },
    { notebook := "unnamed solutions notebook: A first projection in OGGM",
      task := "tasks.run_from_climate_data",
      viaExecuteEntityTask := true, resultBoundByCaller := false,
      callSite := "ssp scenario loop" },
    { notebook := "unnamed solutions notebook: A first projection in OGGM",
      task := "gcm_climate.process_monthly_isimip_data",
      viaExecuteEntityTask := true, resultBoundByCaller := false,
      callSite := "Baltoro ssp scenario loop" },
    { notebook := "unnamed solutions notebook: A first projection in OGGM",
      task := "tasks.run_from_climate_data",
      viaExecuteEntityTask := true, resultBoundByCaller := false,
      callSite := "Baltoro ssp scenario loop" },
    { notebook := "unnamed notebook: Data used by OGGM",
      task := "tasks.gridded_attributes",
      viaExecuteEntityTask := true, resultBoundByCaller := false,
      callSite := "task_list loop" },
    { notebook := "unnamed notebook: Data used by OGGM",
      task := "tasks.gridded_mb_attributes",
      viaExecuteEntityTask := true, resultBoundByCaller := false,
      callSite := "task_list loop" },
    { notebook := "docs/day_2/02_oggm_workflow_intro.ipynb",
      task := "gcm_climate.process_monthly_isimip_data",
      viaExecuteEntityTask := true, resultBoundByCaller := false,
      callSite := "GCM processing cell" },
    { notebook := "docs/day_2/02_oggm_workflow_intro.ipynb",
      task := "tasks.run_from_climate_data",
      viaExecuteEntityTask := true, resultBoundByCaller := false,
      callSite := "projection run cell" },
    invTaskCall,
    { notebook := "docs/day_4/03_inversion.ipynb",
      task := "tasks.mass_conservation_inversion",
      viaExecuteEntityTask := true, resultBoundByCaller := false,
      callSite := "factor loop, fs=5.7e-20" },
    { notebook := "docs/day_4/03_inversion.ipynb",
      task := "tasks.distribute_thickness_per_altitude",
      viaExecuteEntityTask := true, resultBoundByCaller := false,
      callSite := "thickness distribution cell" },
    mbCalibCall ]

/-- C3 counterexample: the day-4 calibration notebook calls the task
`mb_calibration_from_scalar_mb` with `write_to_gdir=False`, binds its
returned parameter record and passes it to `MonthlyTIModel`, so a task
result is passed in memory to the caller. -/
theorem C3_counterexample :
    mbCalibCall ∈ taskCalls ∧ mbCalibCall.resultBoundByCaller = true := by
  decide

/-- C3 as amended: every task the notebooks invoke through
`workflow.execute_entity_task` communicates only through the entity
directory and has its return value discarded; the single direct task call,
`mb_calibration_from_scalar_mb` with `write_to_gdir=False`, instead returns
its result in memory and the caller relies on it. -/
theorem C3_broadcast_tasks_no_return :
    ∀ t ∈ taskCalls, t.viaExecuteEntityTask = true →
      t.resultBoundByCaller = false := by
  decide

/-- Witness for C3 at the inversion task broadcast. -/
theorem C3_witness : invTaskCall.resultBoundByCaller = false :=
  C3_broadcast_tasks_no_return invTaskCall (by decide) (by decide)

/-- An event touching the `gcm_data` product of a set of entities:
`writeGcm` is an `execute_entity_task(process_monthly_isimip_data, ...)`
call with the given `output_filesuffix`; `readGcm` is an
`execute_entity_task(run_from_climate_data, ...)` call with
`climate_filename=gcm_data` and the given `climate_input_filesuffix`. -/
inductive GcmEvent where
  | writeGcm (entities : String) (fsuffix : String)
  | readGcm (entities : String) (fsuffix : String)
deriving DecidableEq

/-- A read of `gcm_data` is covered when an earlier event in the sequence
wrote `gcm_data` for the same entities with the same suffix. -/
def gcmReadsCovered (written : List (String × String)) :
    List GcmEvent → Bool
  | [] => true
  | GcmEvent.writeGcm e sfx :: rest => gcmReadsCovered ((e, sfx) :: written) rest
  | GcmEvent.readGcm e sfx :: rest =>
      written.contains (e, sfx) && gcmReadsCovered written rest

/-- The ordered `gcm_data` events of `docs/day_2/02_oggm_workflow_intro.ipynb`,
transcribed from source (single scenario ssp126, member mri-esm2-0_r1i1p1f1,
entity RGI60-11.00897). -/
def day2GcmEvents : List GcmEvent :=
  [ GcmEvent.writeGcm "RGI60-11.00897" "_ISIMIP3b_mri-esm2-0_r1i1p1f1_ssp126",
    GcmEvent.readGcm "RGI60-11.00897" "_ISIMIP3b_mri-esm2-0_r1i1p1f1_ssp126" ]

/-- The ordered `gcm_data` events of the unnamed solutions notebook
(A first projection in OGGM), transcribed from source with the scenario
loops unrolled: the set-up cell, the three-scenario loop on RGI60-11.00897,
then the three-scenario loop on RGI60-14.06794 (Baltoro). -/
def projGcmEvents : List GcmEvent :=
  [ GcmEvent.writeGcm "RGI60-11.00897" "_ISIMIP3b_mri-esm2-0_r1i1p1f1_ssp126",
    GcmEvent.writeGcm "RGI60-11.00897" "_ISIMIP3b_mri-esm2-0_r1i1p1f1_ssp126",
    GcmEvent.readGcm "RGI60-11.00897" "_ISIMIP3b_mri-esm2-0_r1i1p1f1_ssp126",
    GcmEvent.writeGcm "RGI60-11.00897" "_ISIMIP3b_mri-esm2-0_r1i1p1f1_ssp370",
    GcmEvent.readGcm "RGI60-11.00897" "_ISIMIP3b_mri-esm2-0_r1i1p1f1_ssp370",
    GcmEvent.writeGcm "RGI60-11.00897" "_ISIMIP3b_mri-esm2-0_r1i1p1f1_ssp585",
    GcmEvent.readGcm "RGI60-11.00897" "_ISIMIP3b_mri-esm2-0_r1i1p1f1_ssp585",
    GcmEvent.writeGcm "RGI60-14.06794" "_ISIMIP3b_mri-esm2-0_r1i1p1f1_ssp126",
    GcmEvent.readGcm "RGI60-14.06794" "_ISIMIP3b_mri-esm2-0_r1i1p1f1_ssp126",
    GcmEvent.writeGcm "RGI60-14.06794" "_ISIMIP3b_mri-esm2-0_r1i1p1f1_ssp370",
    GcmEvent.readGcm "RGI60-14.06794" "_ISIMIP3b_mri-esm2-0_r1i1p1f1_ssp370",
    GcmEvent.writeGcm "RGI60-14.06794" "_ISIMIP3b_mri-esm2-0_r1i1p1f1_ssp585",
    GcmEvent.readGcm "RGI60-14.06794" "_ISIMIP3b_mri-esm2-0_r1i1p1f1_ssp585" ]

/-- C5: in both notebooks that run projections, every
`run_from_climate_data` invocation reading `gcm_data` with some scenario
suffix is preceded by the `process_monthly_isimip_data` invocation that
writes `gcm_data` with the same suffix on the same entities. -/
theorem C5_gcm_written_before_read :
    gcmReadsCovered [] day2GcmEvents = true
    ∧ gcmReadsCovered [] projGcmEvents = true := by
  decide

/-- A source file of this repository together with the number of Python
`try` statements and `except` handlers it contains. -/
structure SrcFile where
  path : String
  tryStatementCount : ℕ
  exceptHandlerCount : ℕ
deriving DecidableEq

/-- The inversion notebook entry of `repoFiles` (the file named by the
claim sources). -/
def invFile : SrcFile :=
  { path := "docs/day_4/03_inversion.ipynb",
    tryStatementCount := 0, exceptHandlerCount := 0 }

/-- All files of the repository, transcribed from source: none of them
contains a `try` statement or an `except` handler (nor any other
error-recovery construct). -/
def repoFiles : List SrcFile :=
  [ { path := "docs/_config.yml",
      tryStatementCount := 0, exceptHandlerCount := 0 },
    { path := "docs/day_2/02_oggm_workflow_intro.ipynb",
      tryStatementCount := 0, exceptHandlerCount := 0 },
    { path := "docs/day_3/01_ice_flow_parameters.ipynb",
      tryStatementCount := 0, exceptHandlerCount := 0 },
    { path := "docs/day_4/02_massbalance_calibration.ipynb",
      tryStatementCount := 0, exceptHandlerCount := 0 },
    invFile,
    { path := "docs/day_5/user_defined_mb_model.ipynb",
      tryStatementCount := 0, exceptHandlerCount := 0 },
    { path := "unnamed solutions notebook: A first projection in OGGM",
      tryStatementCount := 0, exceptHandlerCount := 0 },
    { path := "unnamed notebook: Data used by OGGM",
      tryStatementCount := 0, exceptHandlerCount := 0 } ]

/-- C6: no file of this repository contains a `try` statement or an
`except` handler, so no repository code catches, branches on, or recovers
from an error and every failure propagates to the caller. -/
theorem C6_no_error_handling :
    ∀ f ∈ repoFiles, f.tryStatementCount = 0 ∧ f.exceptHandlerCount = 0 := by
  decide

/-- Witness for C6 at the inversion notebook. -/
theorem C6_witness :
    invFile.tryStatementCount = 0 ∧ invFile.exceptHandlerCount = 0 :=
  C6_no_error_handling invFile (by decide)

/-- One opening of an on-disk dataset by notebook code, with the opener
used and whether the open occurs as the header of a `with` block (scoped
acquisition with guaranteed release). -/
structure DsOpen where
  notebook : String
  product : String
  opener : String
  withScoped : Bool
deriving DecidableEq

/-- The day-5 netCDF4 open site of `dsOpenSites`. -/
def day5Open : DsOpen :=
  { notebook := "docs/day_5/user_defined_mb_model.ipynb",
    product := "gridded_data", opener := "netCDF4.Dataset",
    withScoped := true }

/-- All dataset-open sites of the repository, transcribed from source. -/
def dsOpenSites : List DsOpen :=
  [ { notebook := "docs/day_2/02_oggm_workflow_intro.ipynb",
      product := "climate_historical", opener := "xr.open_dataset",
      withScoped := true },
    { notebook := "docs/day_2/02_oggm_workflow_intro.ipynb",
      product := "gcm_data", opener := "xr.open_dataset",
      withScoped := true },
    { notebook := "docs/day_2/02_oggm_workflow_intro.ipynb",
      product := "model_diagnostics", opener := "xr.open_dataset",
      withScoped := true },
    { notebook := "docs/day_2/02_oggm_workflow_intro.ipynb",
      product := "fl_diagnostics", opener := "xr.open_dataset",
      withScoped := true },
    day5Open,
    { notebook := "unnamed solutions notebook: A first projection in OGGM",
      product := "climate_historical", opener := "xr.open_dataset",
      withScoped := true },
    { notebook := "unnamed solutions notebook: A first projection in OGGM",
      product := "gcm_data", opener := "xr.open_dataset",
      withScoped := true },
    { notebook := "unnamed solutions notebook: A first projection in OGGM",
      product := "model_diagnostics (scenario plot loop)", opener := "xr.open_dataset",
      withScoped := true },
    { notebook := "unnamed solutions notebook: A first projection in OGGM",
      product := "model_diagnostics (Baltoro plot loop)", opener := "xr.open_dataset",
      withScoped := true },
    { notebook := "unnamed solutions notebook: A first projection in OGGM",
      product := "fl_diagnostics", opener := "xr.open_dataset",
      withScoped := true },
    { notebook := "unnamed notebook: Data used by OGGM",
      product := "gridded_data (shop datasets cell)", opener := "xr.open_dataset",
      withScoped := true },
    { notebook := "unnamed notebook: Data used by OGGM",
      product := "gridded_data (after gridded attributes)", opener := "xr.open_dataset",
      withScoped := true } ]

/-- C7: every xarray or netCDF4 dataset open performed by repository code
occurs as the header of a `with` block, so every dataset handle is released
when its block is left. -/
theorem C7_dataset_opens_scoped :
    ∀ d ∈ dsOpenSites, d.withScoped = true := by
  decide

/-- Witness for C7 at the day-5 netCDF4 open site. -/
theorem C7_witness : day5Open.withScoped = true :=
  C7_dataset_opens_scoped day5Open (by decide)

end Lahore
